import Mathlib

/-!
Shallow embedding of the pants demand-driven scheduler core
(`src/python/pants/engine/scheduler.py`) and of its path-glob resolver
(`src/python/pants/engine/fs.py`), together with theorems settling the
frozen claims about the natural-language specification.

Python exceptions are modelled with `Except PyErr`; machine-level details
(CFFI buffers, the native Rust scheduler) are modelled as explicit inputs
where the Python code merely decodes them.
-/

/-- Python exception kinds raised by the embedded code paths. -/
inductive PyErr
  | typeError (msg : String)
  | valueError (msg : String)
  | assertionError (msg : String)
  | attributeError (msg : String)
  | nameError (msg : String)
deriving DecidableEq, Repr

/-- Stat object from pants.base.project_tree: one of File, Dir, Link, each
carrying a path relative to the build root. -/
inductive Stat
  | file (path : String)
  | dir (path : String)
  | link (path : String)
deriving DecidableEq, Repr

/-- The path carried by a Stat, shared by the three subclasses. -/
def Stat.path : Stat → String
  | .file p => p
  | .dir p => p
  | .link p => p

/-- Mirrors isinstance(canonical_stat, Dir). -/
def Stat.isDirStat : Stat → Bool
  | .dir _ => true
  | _ => false

/-! ### Python string/path primitives (os.sep is the forward slash) -/

/-- str.split for a single-character separator, as a structural recursion on
the character list. -/
def splitCharAux (sep : Char) : List Char → List Char → List String
  | [], acc => [String.mk acc.reverse]
  | c :: cs, acc =>
    if c = sep then String.mk acc.reverse :: splitCharAux sep cs []
    else splitCharAux sep cs (c :: acc)

/-- s.split(os.sep) from Python. Always returns a nonempty list. -/
def splitSlash (s : String) : List String := splitCharAux '/' s.data []

/-- Contiguous-substring test on character lists. -/
def subOf (pat : List Char) : List Char → Bool
  | [] => pat.isEmpty
  | c :: cs => pat.isPrefixOf (c :: cs) || subOf pat cs

/-- The Python membership test pat in s (substring containment). -/
def strContains (s pat : String) : Bool := subOf pat.data s.data

/-- str.startswith. -/
def strStartsWith (s pre : String) : Bool := pre.data.isPrefixOf s.data

/-- str.endswith. -/
def strEndsWith (s suf : String) : Bool := suf.data.isSuffixOf s.data

/-- One step of the posixpath.normpath component scan: skip empty and dot
components, append ordinary components, and resolve a dot-dot against the
accumulator exactly as CPython does. -/
def normStep (initialSlashes : Nat) (acc : List String) (comp : String) : List String :=
  if comp = ("") ∨ comp = (".") then acc
  else if comp ≠ ("..") ∨ (initialSlashes = 0 ∧ acc = []) ∨ acc.getLast? = some ("..") then
    acc ++ [comp]
  else acc.dropLast

/-- posixpath.normpath from the CPython standard library, as called by
fs.py (os.path.normpath with a forward-slash separator). -/
def normpath (p : String) : String :=
  if p = ("") then (".")
  else
    let initialSlashes : Nat :=
      if strStartsWith p ("/") then
        if strStartsWith p ("//") ∧ ¬ strStartsWith p ("///") then 2 else 1
      else 0
    let comps := splitSlash p
    let newComps := comps.foldl (normStep initialSlashes) []
    let path := String.mk (List.replicate initialSlashes '/') ++
      String.intercalate ("/") newComps
    if path = ("") then (".") else path

/-- Form of normpath that preserves a trailing slash-dot
(fs.py, the private norm-with-dir helper). -/
def norm_with_dir (path : String) : String :=
  let normed := normpath path
  if strEndsWith path ("/.") then normed ++ ("/.") else normed

/-- posixpath.join for exactly two arguments. -/
def pyJoin1 (path b : String) : String :=
  if strStartsWith b ("/") then b
  else if path = ("") ∨ strEndsWith path ("/") then path ++ b
  else path ++ ("/") ++ b

/-- posixpath.join applied to an argument list via star-unpacking, as in
join(*parts). Python raises TypeError when the list is empty because
join requires at least one positional argument. -/
def pyJoin : List String → Except PyErr String
  | [] => .error (.typeError ("join takes at least 1 argument, 0 given"))
  | a :: p => .ok (p.foldl pyJoin1 a)

/-- posixpath.basename: everything after the final slash. -/
def basename (p : String) : String := (splitSlash p).getLastD ("")

example : splitSlash ("a/b/c") = [("a"), ("b"), ("c")] := by decide
example : normpath ("a//b/./c") = ("a/b/c") := by decide
example : normpath ("") = (".") := by decide
example : normpath ("a/../b") = ("b") := by decide
example : norm_with_dir ("a/b/.") = ("a/b/.") := by decide
example : pyJoin [("a"), ("b")] = .ok ("a/b") := rfl
example : basename ("a/b/c.txt") = ("c.txt") := by decide
example : strContains ("a**") ("**") = true := by decide
example : strContains ("ab") ("**") = false := by decide

/-! ### PathGlob model (fs.py) -/

/-- PathWildcard: a PathGlob with a wildcard in the basename component. -/
structure PathWildcardS where
  canonical_stat : Stat
  symbolic_path : String
  wildcard : String
deriving DecidableEq, Repr

/-- PathLiteral: a partially-expanded literal path with a remainder. -/
structure PathLiteralS where
  canonical_stat : Stat
  symbolic_path : String
  literal : String
  remainder : String
deriving DecidableEq, Repr

/-- PathDirWildcard: a wildcard in a directory name, with one remainder
filespec per expansion possibility. -/
structure PathDirWildcardS where
  canonical_stat : Stat
  symbolic_path : String
  wildcard : String
  remainders : List String
deriving DecidableEq, Repr

/-- The closed set of PathGlob subclasses. -/
inductive PathGlobT
  | wildcard (w : PathWildcardS)
  | literal (l : PathLiteralS)
  | dirWildcard (d : PathDirWildcardS)
deriving DecidableEq, Repr

/-- PathGlob.create_from_spec from fs.py. Splits the normalized filespec on
the separator; a first component containing the double wildcard must be
exactly the double wildcard (else ValueError) and yields a PathDirWildcard
with two remainders, a single component yields a PathWildcard, a literal
first component yields a PathLiteral, and a single-wildcard first component
yields a PathDirWildcard with one remainder. join star-unpacked over an
empty component list raises TypeError, which happens exactly when the
normalized filespec is the bare double wildcard. -/
def create_from_spec (canonical_stat : Stat) (symbolic_path : String)
    (filespec : String) : Except PyErr PathGlobT :=
  if ¬ canonical_stat.isDirStat then
    .error (.valueError ("Expected a Dir as the canonical_stat."))
  else
    let parts := splitSlash (norm_with_dir filespec)
    let p0 := parts.headD ("")
    if strContains p0 ("**") then
      if p0 ≠ ("**") then
        .error (.valueError ("Illegal component " ++ p0 ++ " in filespec under " ++
          symbolic_path ++ (": ") ++ filespec))
      else do
        let r1 ← pyJoin parts.tail
        let r2 ← pyJoin parts
        .ok (.dirWildcard ⟨canonical_stat, symbolic_path, p0, [r1, r2]⟩)
    else if parts.length = 1 then
      .ok (.wildcard ⟨canonical_stat, symbolic_path, p0⟩)
    else if ¬ strContains p0 ("*") then do
      let r ← pyJoin parts.tail
      .ok (.literal ⟨canonical_stat, symbolic_path, p0, r⟩)
    else do
      let r ← pyJoin parts.tail
      .ok (.dirWildcard ⟨canonical_stat, symbolic_path, p0, [r]⟩)

example : create_from_spec (.dir ("")) ("") ("**/a/b.java") =
    .ok (.dirWildcard ⟨.dir (""), (""), ("**"), [("a/b.java"), ("**/a/b.java")]⟩) := rfl
example : create_from_spec (.dir ("")) ("") ("*.java") =
    .ok (.wildcard ⟨.dir (""), (""), ("*.java")⟩) := rfl
example : create_from_spec (.dir ("")) ("") ("a/b/*.java") =
    .ok (.literal ⟨.dir (""), (""), ("a"), ("b/*.java")⟩) := rfl
example : create_from_spec (.dir ("")) ("") ("a*/b") =
    .ok (.dirWildcard ⟨.dir (""), (""), ("a*"), [("b")]⟩) := rfl
example : create_from_spec (.dir ("")) ("") ("**") =
    .error (.typeError ("join takes at least 1 argument, 0 given")) := rfl
example : ∃ m, create_from_spec (.dir ("")) ("") ("a**/b") = .error (.valueError m) :=
  ⟨_, rfl⟩

/-! ### Scheduler model (scheduler.py)

Product types are identified by name; interned value keys (Digests) are
opaque naturals. The native Rust scheduler behind self.native.lib is
external to the repository, so its outputs (raw roots, raw runnables) are
explicit inputs of the decoding functions, and the root selections pushed
into it are recorded in the model state. -/

/-- A product type, identified by its type name. -/
def Product := String
deriving instance DecidableEq, Repr for Product

/-- Root subjects, tagged by their Python type. The other constructor
stands for a value of any type absent from the root-selector table. -/
inductive Subject
  | address (a : String)
  | pathGlobs (g : String)
  | singleAddress (a : String)
  | siblingAddresses (a : String)
  | descendantAddresses (a : String)
  | other (descr : String)
deriving DecidableEq, Repr

/-- Which native root-selection call the scheduler makes for a subject
type: the root-selector-fns table maps Address and PathGlobs to the plain
product selection and the three Spec types to the dependency-address
selection; any other type is absent. -/
inductive SelKind
  | selectProduct
  | selectDepAddrs
deriving DecidableEq, Repr

/-- The root-selector-fns dict built in LocalScheduler, keyed by type. -/
def selector_fn_kind : Subject → Option SelKind
  | .address _ => some .selectProduct
  | .pathGlobs _ => some .selectProduct
  | .singleAddress _ => some .selectDepAddrs
  | .siblingAddresses _ => some .selectDepAddrs
  | .descendantAddresses _ => some .selectDepAddrs
  | .other _ => none

/-- Display name of a subject's Python type, used in error messages. -/
def subjectTypeName : Subject → String
  | .address _ => ("Address")
  | .pathGlobs _ => ("PathGlobs")
  | .singleAddress _ => ("SingleAddress")
  | .siblingAddresses _ => ("SiblingAddresses")
  | .descendantAddresses _ => ("DescendantAddresses")
  | .other d => d

/-- The TypeError message raised for an unsupported root subject type. -/
def unsupported_msg (s : Subject) : String :=
  ("Unsupported root subject type: ") ++ subjectTypeName s

/-- A root selection registered with the native scheduler: either
execution-add-root-select, or execution-add-root-select-dependencies. -/
inductive RootSel
  | select (s : Subject) (p : Product)
  | selectDeps (s : Subject) (p : Product)
deriving DecidableEq, Repr

/-- The generator object stored in ExecutionRequest.roots: yields its
items once, then is exhausted forever. -/
structure RootsGen where
  items : List (Subject × Product)
  exhausted : Bool
deriving DecidableEq, Repr

/-- Iterating a Python generator to completion: an exhausted generator
yields nothing; a fresh one yields its items and becomes exhausted. -/
def consume_roots (g : RootsGen) : List (Subject × Product) × RootsGen :=
  if g.exhausted then ([], g) else (g.items, { g with exhausted := true })

/-- ExecutionRequest object: roots plus a Python object identity, since
the scheduler compares requests with the is operator. -/
structure ExecReqObj where
  oid : Nat
  roots : RootsGen
deriving DecidableEq, Repr

/-- LocalScheduler.execution_request: builds an ExecutionRequest whose
roots field is the generator expression pairing each subject with each
product (subjects outermost). The fresh object identity is a parameter. -/
def execution_request (oid : Nat) (products : List Product)
    (subjects : List Subject) : ExecReqObj :=
  { oid := oid,
    roots := { items := subjects.flatMap (fun s => products.map (fun p => (s, p))),
               exhausted := false } }

/-- The mutable state of a LocalScheduler relevant to the claims: the
active request (by object identity), the root selections accumulated in
the native scheduler, and how many times execution-reset was invoked. -/
structure SchedulerState where
  executionRequest : Option Nat
  nativeRoots : List RootSel
  resetCount : Nat
deriving DecidableEq, Repr

/-- The native root-selection call made for one supported root. -/
def root_sel (s : Subject) (p : Product) : RootSel :=
  match selector_fn_kind s with
  | some .selectDepAddrs => .selectDeps s p
  | _ => .select s p

/-- The for-loop body of execution-add-roots: look up the selector
function for the subject's type, raise TypeError when absent, otherwise
register the corresponding native root selection. -/
def add_roots_loop : SchedulerState → List (Subject × Product) →
    Except PyErr SchedulerState
  | st, [] => .ok st
  | st, (s, p) :: rest =>
    match selector_fn_kind s with
    | none => .error (.typeError (unsupported_msg s))
    | some _ => add_roots_loop
        { st with nativeRoots := st.nativeRoots ++ [root_sel s p] } rest

/-- LocalScheduler private execution-add-roots: when a request is already
active, reset the native execution (modelled by clearing the recorded
selections and bumping the reset counter); record the new request as
active; then iterate the request's roots generator registering each root.
On a TypeError the Python object keeps its partial mutations; the model
returns only the exception. -/
def execution_add_roots (st : SchedulerState) (req : ExecReqObj) :
    Except PyErr (SchedulerState × ExecReqObj) :=
  let st1 := if st.executionRequest.isSome then
      { st with nativeRoots := [], resetCount := st.resetCount + 1 }
    else st
  let st2 := { st1 with executionRequest := some req.oid }
  let (items, roots2) := consume_roots req.roots
  match add_roots_loop st2 items with
  | .error e => .error e
  | .ok st3 => .ok (st3, { req with roots := roots2 })

/-- The phase of LocalScheduler.schedule that runs before the first batch
could be yielded: schedule is a generator that, once driven, takes the
product-graph lock, records the start time and calls
execution-add-roots before entering the yield loop. -/
def schedule_initial (st : SchedulerState) (req : ExecReqObj) :
    Except PyErr (SchedulerState × ExecReqObj) :=
  execution_add_roots st req

/-! ### root_entries (scheduler.py) -/

/-- A settled state attached to a root by root_entries: Return carries the
decoded value key, Throw carries the fixed message the code builds. -/
inductive StateV
  | ret (v : Nat)
  | thr (m : String)
deriving DecidableEq, Repr

/-- A raw root as unpacked from the native execution-roots buffer:
subject key, product type key, a union tag in 0..3 and the return-value
slot used when the tag is 1. -/
structure RawRoot where
  subject : Subject
  product : Product
  unionTag : Nat
  unionReturn : Nat
deriving DecidableEq, Repr

/-- Decoding of one raw root's state in root_entries: tag 0 is None,
tag 1 is Return of the decoded value, tag 2 is Throw of the literal
message Failed, any other tag is a ValueError. Tag 3 is meant to build
Noop, but scheduler.py never imports Noop (its nodes import lists only
Return, Runnable and Throw), so evaluating that branch raises NameError. -/
def decode_root (r : RawRoot) : Except PyErr (Option StateV) :=
  if r.unionTag = 0 then .ok none
  else if r.unionTag = 1 then .ok (some (.ret r.unionReturn))
  else if r.unionTag = 2 then .ok (some (.thr ("Failed")))
  else if r.unionTag = 3 then .error (.nameError ("name Noop is not defined"))
  else .error (.valueError ("Unrecognized State type"))

/-- LocalScheduler.root_entries: raises ValueError when the given request
is not the active one (compared by object identity), otherwise decodes
every raw root returned by the native scheduler into a
((subject, product), state) entry, in order. -/
def root_entries (st : SchedulerState) (reqOid : Nat) (raws : List RawRoot) :
    Except PyErr (List ((Subject × Product) × Option StateV)) :=
  if st.executionRequest = some reqOid then
    raws.mapM (fun r => do
      let v ← decode_root r
      .ok ((r.subject, r.product), v))
  else .error (.valueError ("Multiple concurrent executions are not supported!"))

/-! ### Batch decoding in the scheduler loop (scheduler.py) -/

/-- A raw runnable argument from the native RawExecution struct: tag 0
marks a literal interned key (in key), tag 1 marks the id of another
outstanding runnable of the same batch (in promise). -/
structure RawArg where
  tag : Nat
  key : Nat
  promise : Nat
deriving DecidableEq, Repr

/-- A raw runnable: node id, function key, argument vector, cacheable
flag. -/
structure RawRunnable where
  id : Nat
  func : Nat
  args : List RawArg
  cacheable : Bool
deriving DecidableEq, Repr

/-- The decoded Runnable handed to the external execution pool
(pants.engine.nodes.Runnable): function key, argument keys, cacheable. -/
structure RunnableV where
  func : Nat
  args : List Nat
  cacheable : Bool
deriving DecidableEq, Repr

/-- decode_arg from execution-next: a tag-0 argument decodes to its
literal key; a tag-1 argument, the id of another runnable in the batch,
raises AssertionError because pipelining is unimplemented; any other tag
raises ValueError. -/
def decode_arg (raw : RawArg) : Except PyErr Nat :=
  if raw.tag = 0 then .ok raw.key
  else if raw.tag = 1 then
    .error (.assertionError ("TODO! implement pipelining to run"))
  else .error (.valueError ("Unrecognized RawArg tag"))

/-- decode_runnable from execution-next: pairs the opaque node id with a
Runnable built from the function key, the decoded arguments in order, and
the cacheable flag. An exception from any argument propagates. -/
def decode_runnable (raw : RawRunnable) : Except PyErr (Nat × RunnableV) := do
  let args ← raw.args.mapM decode_arg
  .ok (raw.id, ⟨raw.func, args, raw.cacheable⟩)

/-- The batch construction at the end of execution-next: decode every raw
runnable unpacked from the native RawExecution struct, in order. -/
def decode_batch (raws : List RawRunnable) :
    Except PyErr (List (Nat × RunnableV)) :=
  raws.mapM decode_runnable

/-! ### invalidate_files (scheduler.py) -/

/-- LocalScheduler.invalidate_files. The helper generating filesystem
subjects for the filenames is imported from pants.engine.fs but not
defined there, so it is a parameter. After computing the subjects the
method attempts to raise AssertionError with a message saying invalidation
is not implemented, but the message is built with .formast, a typo for
.format, so an AttributeError is raised while evaluating the argument.
Nothing is ever marked dirty and the method never returns normally. -/
def invalidate_files (gen_fs_subjects : List String → List Subject)
    (filenames : List String) : Except PyErr Unit :=
  let _subjects := gen_fs_subjects filenames
  .error (.attributeError ("unicode object has no attribute formast"))

/-! ### Paths and link resolution (fs.py) -/

/-- Path: a symbolic path name paired with its underlying canonical Stat. -/
structure PathV where
  path : String
  stat : Stat
deriving DecidableEq, Repr

/-- Paths: a set of Path objects. -/
structure Paths where
  dependencies : List PathV
deriving DecidableEq, Repr

/-- Paths.files: the dependencies whose stat is a File. -/
def Paths.files (ps : Paths) : List PathV :=
  ps.dependencies.filter (fun p => match p.stat with | .file _ => true | _ => false)

/-- Paths.dirs: the dependencies whose stat is a Dir. -/
def Paths.dirs (ps : Paths) : List PathV :=
  ps.dependencies.filter (fun p => match p.stat with | .dir _ => true | _ => false)

/-- Paths.links: the dependencies whose stat is a Link. -/
def Paths.links (ps : Paths) : List PathV :=
  ps.dependencies.filter (fun p => match p.stat with | .link _ => true | _ => false)

/-- Stats: a set of Stat objects. -/
structure Stats where
  dependencies : List Stat
deriving DecidableEq, Repr

/-- apply_path_wildcard from fs.py: filter the Stats to those whose
basename matches the wildcard under fnmatch, and pair each with the
normalized join of the symbolic path and the basename. fnmatch.fnmatch is
the Python standard-library matcher, a parameter of the model. -/
def apply_path_wildcard (fnmatchF : String → String → Bool) (stats : Stats)
    (pw : PathWildcardS) : Paths :=
  ⟨(stats.dependencies.filter
      (fun s => fnmatchF (basename s.path) pw.wildcard)).map
    (fun s => ⟨normpath (pyJoin1 pw.symbolic_path (basename s.path)), s⟩)⟩

/-- The Dirs collection. As the source notes, its entries are really Path
objects wrapping Dir stats. -/
structure DirsC where
  dependencies : List PathV
deriving DecidableEq, Repr

/-- resolve_dir_links from fs.py: requires one resolved Dirs object per
Link among the Paths (else ValueError); keeps the direct Dir matches and,
for each link whose Dirs resolution is nonempty, a Path aliasing the
link's symbolic path with the first resolved entry's canonical stat; a
link with an empty resolution contributes nothing. -/
def resolve_dir_links (direct_paths : Paths) (linked_dirs : List DirsC) :
    Except PyErr DirsC :=
  if direct_paths.links.length ≠ linked_dirs.length then
    .error (.valueError ("Expected to receive a Dirs object per Link."))
  else
    let pairs := direct_paths.links.zip linked_dirs
    let linked_paths := (pairs.filter (fun x => 0 < x.2.dependencies.length)).map
      (fun x => PathV.mk x.1.path ((x.2.dependencies.headD ⟨(""), .file ("")⟩).stat))
    .ok ⟨direct_paths.dirs ++ linked_paths⟩

/-! ### Helper lemmas -/

/-- When every root subject type is supported, the add-roots loop succeeds
and registers one native selection per root, in order. -/
theorem add_roots_loop_ok : ∀ (items : List (Subject × Product)) (st : SchedulerState),
    (∀ sp ∈ items, selector_fn_kind sp.1 ≠ none) →
    add_roots_loop st items =
      .ok { st with nativeRoots := st.nativeRoots ++ items.map (fun sp => root_sel sp.1 sp.2) }
  | [], st, _ => by simp [add_roots_loop]
  | (s, p) :: rest, st, h => by
    have hs : selector_fn_kind s ≠ none := h (s, p) (List.mem_cons_self _ _)
    obtain ⟨k, hk⟩ := Option.ne_none_iff_exists'.mp hs
    have ih := add_roots_loop_ok rest
      { st with nativeRoots := st.nativeRoots ++ [root_sel s p] }
      (fun sp hsp => h sp (List.mem_cons_of_mem _ hsp))
    simp [add_roots_loop, hk, ih]

/-- When some root subject type is unsupported, the add-roots loop raises a
TypeError naming an unsupported subject that occurs among the roots. -/
theorem add_roots_loop_err : ∀ (items : List (Subject × Product)) (st : SchedulerState),
    (∃ sp ∈ items, selector_fn_kind sp.1 = none) →
    ∃ s', (∃ p', (s', p') ∈ items) ∧ selector_fn_kind s' = none ∧
      add_roots_loop st items = .error (.typeError (unsupported_msg s'))
  | [], _, h => absurd h (by simp)
  | (s, p) :: rest, st, h => by
    cases hk : selector_fn_kind s with
    | none =>
      exact ⟨s, ⟨p, List.mem_cons_self _ _⟩, hk, by simp [add_roots_loop, hk]⟩
    | some k =>
      have hrest : ∃ sp ∈ rest, selector_fn_kind sp.1 = none := by
        obtain ⟨sp, hsp, hnone⟩ := h
        rcases List.mem_cons.mp hsp with heq | hmem
        · exact absurd hnone (by rw [heq]; simp [hk])
        · exact ⟨sp, hmem, hnone⟩
      obtain ⟨s', ⟨p', hp'⟩, hnone, hloop⟩ := add_roots_loop_err rest
        { st with nativeRoots := st.nativeRoots ++ [root_sel s p] } hrest
      exact ⟨s', ⟨p', List.mem_cons_of_mem _ hp'⟩, hnone, by simp [add_roots_loop, hk, hloop]⟩

/-! ### Claim theorems -/

/-- C1, counterexample: with one execution request already active (object 0),
calling schedule with a second request (object 1) does not raise any
concurrent-execution error: the pre-batch phase returns successfully, having
reset and rescheduled. This refutes the claim that schedule raises
synchronously when a request is already active. -/
theorem c1_counterexample :
    schedule_initial ⟨some 0, [], 0⟩ ⟨1, ⟨[(.address ("a"), ("P"))], false⟩⟩ =
      .ok (⟨some 1, [.select (.address ("a")) ("P")], 1⟩,
           ⟨1, ⟨[(.address ("a"), ("P"))], true⟩⟩) := rfl

/-- C1, amended: calling schedule while another execution request is active
does not raise; it resets the native execution state, replaces the active
request and registers the new request's roots. The concurrent-execution
ValueError is raised from root_entries when given a request that is not the
active one. -/
theorem c1_schedule_replaces_active_request :
    (∀ (st : SchedulerState) (req : ExecReqObj) (o : Nat),
      st.executionRequest = some o →
      req.roots.exhausted = false →
      (∀ sp ∈ req.roots.items, selector_fn_kind sp.1 ≠ none) →
      schedule_initial st req =
        .ok ({ executionRequest := some req.oid,
               nativeRoots := req.roots.items.map (fun sp => root_sel sp.1 sp.2),
               resetCount := st.resetCount + 1 },
             { req with roots := { items := req.roots.items, exhausted := true } })) ∧
    (∀ (st : SchedulerState) (o : Nat) (raws : List RawRoot),
      st.executionRequest ≠ some o →
      ∃ m, root_entries st o raws = .error (.valueError m)) := by
  constructor
  · intro st req o hact hex hsupp
    have hloop := add_roots_loop_ok req.roots.items
      ⟨some req.oid, [], st.resetCount + 1⟩ hsupp
    simp [schedule_initial, execution_add_roots, consume_roots, hex, hact,
          Option.isSome] at hloop ⊢
    simp [hloop]
  · intro st o raws hne
    exact ⟨("Multiple concurrent executions are not supported!"),
      by simp [root_entries, hne]⟩

/-- C1, witness for the amended theorem at concrete inputs. -/
theorem c1_schedule_replaces_active_request_witness :
    schedule_initial ⟨some 3, [.select (.address ("z")) ("Q")], 0⟩
        ⟨4, ⟨[(.pathGlobs ("g"), ("R"))], false⟩⟩ =
      .ok (⟨some 4, [.select (.pathGlobs ("g")) ("R")], 1⟩,
           ⟨4, ⟨[(.pathGlobs ("g"), ("R"))], true⟩⟩) ∧
    (∃ m, root_entries ⟨some 3, [], 0⟩ 4 [] = .error (.valueError m)) :=
  ⟨c1_schedule_replaces_active_request.1 ⟨some 3, [.select (.address ("z")) ("Q")], 0⟩
      ⟨4, ⟨[(.pathGlobs ("g"), ("R"))], false⟩⟩ 3 rfl rfl (by decide),
   c1_schedule_replaces_active_request.2 ⟨some 3, [], 0⟩ 4 [] (by decide)⟩

/-- C2, counterexample: invalidate_files raises on a valid path input, so it
neither marks nodes dirty nor returns normally. -/
theorem c2_counterexample :
    invalidate_files (fun _ => []) [("a.txt")] =
      .error (.attributeError ("unicode object has no attribute formast")) := rfl

/-- C2, amended: invalidate_files never invalidates anything and never
returns normally; every call raises (invalidation is unimplemented, and the
AttributeError from the formast typo fires while the intended
not-implemented AssertionError message is being built). -/
theorem c2_invalidate_files_always_raises :
    ∀ (gen : List String → List Subject) (filenames : List String),
      ∃ m, invalidate_files gen filenames = .error (.attributeError m) :=
  fun _ _ => ⟨_, rfl⟩

/-- All-literal argument vectors decode to their keys, in order
(non-tail-recursive mapM form). -/
theorem mapM'_decode_arg_ok : ∀ (args : List RawArg), (∀ a ∈ args, a.tag = 0) →
    args.mapM' decode_arg = .ok (args.map (fun a => a.key))
  | [], _ => rfl
  | a :: rest, h => by
    have ha : decode_arg a = .ok a.key := by
      simp [decode_arg, h a (List.mem_cons_self _ _)]
    have ih := mapM'_decode_arg_ok rest (fun x hx => h x (List.mem_cons_of_mem _ hx))
    simp only [List.mapM']
    rw [ha, ih]
    rfl

/-- All-literal argument vectors decode to their keys, in order. -/
theorem mapM_decode_arg_ok (args : List RawArg) (h : ∀ a ∈ args, a.tag = 0) :
    args.mapM decode_arg = .ok (args.map (fun a => a.key)) := by
  rw [← List.mapM'_eq_mapM]
  exact mapM'_decode_arg_ok args h

/-- An argument vector containing any non-literal argument fails to decode
(non-tail-recursive mapM form). -/
theorem mapM'_decode_arg_err : ∀ (args : List RawArg), (∃ a ∈ args, a.tag ≠ 0) →
    ∃ e, args.mapM' decode_arg = .error e
  | [], h => absurd h (by simp)
  | a :: rest, h => by
    by_cases ha : a.tag = 0
    · have hok : decode_arg a = .ok a.key := by simp [decode_arg, ha]
      have hrest : ∃ x ∈ rest, x.tag ≠ 0 := by
        obtain ⟨x, hx, hxt⟩ := h
        rcases List.mem_cons.mp hx with heq | hmem
        · exact absurd hxt (by rw [heq]; simp [ha])
        · exact ⟨x, hmem, hxt⟩
      obtain ⟨e, he⟩ := mapM'_decode_arg_err rest hrest
      refine ⟨e, ?_⟩
      simp only [List.mapM']
      rw [hok, he]
      rfl
    · by_cases h1 : a.tag = 1
      · refine ⟨.assertionError ("TODO! implement pipelining to run"), ?_⟩
        have he : decode_arg a = .error (.assertionError
            ("TODO! implement pipelining to run")) := by simp [decode_arg, ha, h1]
        simp only [List.mapM']
        rw [he]
        rfl
      · refine ⟨.valueError ("Unrecognized RawArg tag"), ?_⟩
        have he : decode_arg a = .error (.valueError ("Unrecognized RawArg tag")) := by
          simp [decode_arg, ha, h1]
        simp only [List.mapM']
        rw [he]
        rfl

/-- An argument vector containing any non-literal argument fails to decode. -/
theorem mapM_decode_arg_err (args : List RawArg) (h : ∃ a ∈ args, a.tag ≠ 0) :
    ∃ e, args.mapM decode_arg = .error e := by
  rw [← List.mapM'_eq_mapM]
  exact mapM'_decode_arg_err args h

/-- C3, counterexample: a batch containing a runnable whose argument refers
to another runnable of the same batch (tag 1) is not decoded and yielded; it
raises AssertionError because pipelining is unimplemented. -/
theorem c3_counterexample :
    decode_batch [⟨7, 11, [⟨1, 0, 3⟩], true⟩] =
      .error (.assertionError ("TODO! implement pipelining to run")) := rfl

/-- C3, amended: a batch element all of whose arguments are literal value
keys decodes to its opaque node id, function key, argument-key vector and
cacheable flag; a tag-1 argument (reference to another runnable of the
batch) always raises AssertionError from decode_arg, and any runnable with a
non-literal argument fails to decode rather than being yielded. -/
theorem c3_batch_decoding :
    (∀ raw : RawRunnable, (∀ a ∈ raw.args, a.tag = 0) →
      decode_runnable raw =
        .ok (raw.id, ⟨raw.func, raw.args.map (fun a => a.key), raw.cacheable⟩)) ∧
    (∀ a : RawArg, a.tag = 1 →
      decode_arg a = .error (.assertionError ("TODO! implement pipelining to run"))) ∧
    (∀ raw : RawRunnable, (∃ a ∈ raw.args, a.tag ≠ 0) →
      ∃ e, decode_runnable raw = .error e) := by
  refine ⟨?_, ?_, ?_⟩
  · intro raw h
    simp only [decode_runnable]
    rw [mapM_decode_arg_ok raw.args h]
    rfl
  · intro a h
    simp [decode_arg, h]
  · intro raw h
    obtain ⟨e, he⟩ := mapM_decode_arg_err raw.args h
    refine ⟨e, ?_⟩
    simp only [decode_runnable]
    rw [he]
    rfl

/-- C3, witness for the amended theorem at concrete inputs. -/
theorem c3_batch_decoding_witness :
    decode_runnable ⟨5, 10, [⟨0, 21, 0⟩, ⟨0, 22, 0⟩], true⟩ =
      .ok (5, ⟨10, [21, 22], true⟩) ∧
    decode_arg ⟨1, 0, 9⟩ = .error (.assertionError ("TODO! implement pipelining to run")) ∧
    (∃ e, decode_runnable ⟨6, 10, [⟨0, 21, 0⟩, ⟨1, 0, 5⟩], false⟩ = .error e) :=
  ⟨c3_batch_decoding.1 ⟨5, 10, [⟨0, 21, 0⟩, ⟨0, 22, 0⟩], true⟩ (by decide),
   c3_batch_decoding.2.1 ⟨1, 0, 9⟩ rfl,
   c3_batch_decoding.2.2 ⟨6, 10, [⟨0, 21, 0⟩, ⟨1, 0, 5⟩], false⟩
     ⟨⟨1, 0, 5⟩, by decide, by decide⟩⟩

/-- C4: root_entries decodes tag 0 as None, tag 1 as Return and tag 2 as
Throw, and raises ValueError for a request that is not the active one, as
the claim states; but a root with union tag 3 makes it raise NameError
because scheduler.py builds Noop without ever importing it, where the claim
(and the line's own intent) says the entry should be a Noop state. -/
theorem c4_root_entries_noop_line_raises_namerror :
    root_entries ⟨some 5, [], 0⟩ 5
        [⟨.address ("a"), ("P"), 0, 0⟩, ⟨.address ("a"), ("Q"), 1, 42⟩,
         ⟨.address ("b"), ("P"), 2, 0⟩] =
      .ok [((.address ("a"), ("P")), none),
           ((.address ("a"), ("Q")), some (.ret 42)),
           ((.address ("b"), ("P")), some (.thr ("Failed")))] ∧
    root_entries ⟨some 5, [], 0⟩ 5 [⟨.address ("c"), ("P"), 3, 0⟩] =
      .error (.nameError ("name Noop is not defined")) ∧
    (∃ m, root_entries ⟨some 5, [], 0⟩ 6 [] = .error (.valueError m)) :=
  ⟨rfl, rfl, ⟨_, rfl⟩⟩

/-- C5: execution_request builds exactly the cartesian product of subjects
and products (subjects outermost), but stores it as a one-shot generator:
the first traversal yields the root pairs and exhausts it, so a second
traversal by any later consumer observes no roots at all, contradicting the
ExecutionRequest docstring which promises a list of tuples. -/
theorem c5_execution_request_roots_one_shot :
    (execution_request 7 [("P"), ("Q")] [.address ("a"), .address ("b")]).roots.items =
      [(.address ("a"), ("P")), (.address ("a"), ("Q")),
       (.address ("b"), ("P")), (.address ("b"), ("Q"))] ∧
    (consume_roots (execution_request 9 [("P")] [.address ("a")]).roots).1 =
      [(.address ("a"), ("P"))] ∧
    (consume_roots (consume_roots (execution_request 9 [("P")] [.address ("a")]).roots).2).1 =
      [] :=
  ⟨rfl, rfl, rfl⟩

/-- C9: when an execution request contains a root whose subject type has no
entry in the root-selector table, the pre-batch phase of schedule raises a
TypeError naming an unsupported subject present among the roots, so no
batch is ever yielded. -/
theorem c9_unsupported_root_subject_typeerror :
    ∀ (st : SchedulerState) (req : ExecReqObj),
      req.roots.exhausted = false →
      (∃ sp ∈ req.roots.items, selector_fn_kind sp.1 = none) →
      ∃ s', (∃ p', (s', p') ∈ req.roots.items) ∧ selector_fn_kind s' = none ∧
        schedule_initial st req = .error (.typeError (unsupported_msg s')) := by
  intro st req hex hbad
  obtain ⟨s', hp', hnone, hloop⟩ := add_roots_loop_err req.roots.items
    { (if st.executionRequest.isSome then
        { st with nativeRoots := [], resetCount := st.resetCount + 1 } else st) with
      executionRequest := some req.oid } hbad
  refine ⟨s', hp', hnone, ?_⟩
  simp [schedule_initial, execution_add_roots, consume_roots, hex, hloop]

/-- The double wildcard contains itself as a substring. -/
theorem strContains_double_self : strContains ("**") ("**") = true := by decide

/-- C6, counterexample: a filespec that is exactly the double wildcard has
first component the double wildcard, yet create_from_spec does not return a
PathDirWildcard: join star-unpacked over the empty remaining-component list
raises TypeError. -/
theorem c6_counterexample :
    create_from_spec (.dir ("r")) ("r") ("**") =
      .error (.typeError ("join takes at least 1 argument, 0 given")) := rfl

/-- C6, amended: for a filespec whose normalized first component is the
double wildcard and which has at least one further component,
create_from_spec returns a PathDirWildcard with exactly two remainders, the
join of the remaining components (double wildcard consumed) and the join of
all components (double wildcard preserved); a first component mixing the
double wildcard with other characters raises ValueError instead. A filespec
that is exactly the double wildcard raises TypeError (the counterexample),
which the original claim did not allow. -/
theorem c6_double_wildcard_two_remainders :
    (∀ (d sym filespec c : String) (cs : List String),
      splitSlash (norm_with_dir filespec) = ("**") :: c :: cs →
      ∃ r1 r2, pyJoin (c :: cs) = .ok r1 ∧ pyJoin (("**") :: c :: cs) = .ok r2 ∧
        create_from_spec (.dir d) sym filespec =
          .ok (.dirWildcard ⟨.dir d, sym, ("**"), [r1, r2]⟩)) ∧
    (∀ (d sym filespec p0 : String) (rest : List String),
      splitSlash (norm_with_dir filespec) = p0 :: rest →
      strContains p0 ("**") = true → p0 ≠ ("**") →
      ∃ m, create_from_spec (.dir d) sym filespec = .error (.valueError m)) := by
  constructor
  · intro d sym filespec c cs h
    refine ⟨cs.foldl pyJoin1 c, (c :: cs).foldl pyJoin1 ("**"), rfl, rfl, ?_⟩
    simp [create_from_spec, Stat.isDirStat, h, strContains_double_self, pyJoin]
    rfl
  · intro d sym filespec p0 rest h hc hne
    refine ⟨("Illegal component " ++ p0 ++ " in filespec under " ++ sym ++
      (": ") ++ filespec), ?_⟩
    simp [create_from_spec, Stat.isDirStat, h, hc, hne]

/-- C6, witness for the amended theorem at concrete filespecs. -/
theorem c6_double_wildcard_two_remainders_witness :
    (∃ r1 r2, pyJoin [("a"), ("b.java")] = .ok r1 ∧
      pyJoin [("**"), ("a"), ("b.java")] = .ok r2 ∧
      create_from_spec (.dir ("")) ("") ("**/a/b.java") =
        .ok (.dirWildcard ⟨.dir (""), (""), ("**"), [r1, r2]⟩)) ∧
    (∃ m, create_from_spec (.dir ("")) ("q") ("a**/b") = .error (.valueError m)) :=
  ⟨c6_double_wildcard_two_remainders.1 ("") ("") ("**/a/b.java") ("a") [("b.java")]
      (by decide),
   c6_double_wildcard_two_remainders.2 ("") ("q") ("a**/b") ("a**") [("b")]
      (by decide) (by decide) (by decide)⟩

/-- C10, counterexample: the bare double-wildcard filespec is a third
raising input, and it raises TypeError, not ValueError, so the raising
behaviour is not exhausted by the two ValueError cases of the claim. -/
theorem c10_counterexample :
    create_from_spec (.dir ("x")) ("x") ("**") =
      .error (.typeError ("join takes at least 1 argument, 0 given")) ∧
    ∀ m, create_from_spec (.dir ("x")) ("x") ("**") ≠ .error (.valueError m) := by
  refine ⟨rfl, ?_⟩
  intro m hm
  rw [show create_from_spec (.dir ("x")) ("x") ("**") =
    Except.error (.typeError ("join takes at least 1 argument, 0 given")) from rfl] at hm
  simp at hm

/-- C10, amended: create_from_spec raises ValueError in exactly the two
malformed cases of the claim, a non-Dir canonical stat and a first
component mixing the double wildcard with other characters; additionally
the bare double-wildcard filespec raises TypeError; every other input
returns a PathGlob without raising. -/
theorem c10_create_from_spec_error_cases :
    (∀ (st : Stat) (sym filespec : String), st.isDirStat = false →
      ∃ m, create_from_spec st sym filespec = .error (.valueError m)) ∧
    (∀ (d sym filespec p0 : String) (rest : List String),
      splitSlash (norm_with_dir filespec) = p0 :: rest →
      strContains p0 ("**") = true → p0 ≠ ("**") →
      ∃ m, create_from_spec (.dir d) sym filespec = .error (.valueError m)) ∧
    (∀ (d sym filespec : String),
      splitSlash (norm_with_dir filespec) = [("**")] →
      create_from_spec (.dir d) sym filespec =
        .error (.typeError ("join takes at least 1 argument, 0 given"))) ∧
    (∀ (d sym filespec p0 : String) (rest : List String),
      splitSlash (norm_with_dir filespec) = p0 :: rest →
      (strContains p0 ("**") = true → p0 = ("**")) →
      ¬(p0 = ("**") ∧ rest = []) →
      ∃ g, create_from_spec (.dir d) sym filespec = .ok g) := by
  refine ⟨?_, ?_, ?_, ?_⟩
  · intro st sym filespec hst
    exact ⟨("Expected a Dir as the canonical_stat."),
      by simp [create_from_spec, hst]⟩
  · intro d sym filespec p0 rest h hc hne
    exact ⟨("Illegal component " ++ p0 ++ " in filespec under " ++ sym ++
      (": ") ++ filespec), by simp [create_from_spec, Stat.isDirStat, h, hc, hne]⟩
  · intro d sym filespec h
    simp [create_from_spec, Stat.isDirStat, h, strContains_double_self, pyJoin]
    rfl
  · intro d sym filespec p0 rest h h1 h2
    by_cases hc : strContains p0 ("**") = true
    · have hp0 : p0 = ("**") := h1 hc
      cases rest with
      | nil => exact absurd ⟨hp0, rfl⟩ h2
      | cons c cs =>
        exact ⟨.dirWildcard ⟨.dir d, sym, p0, [cs.foldl pyJoin1 c,
            (c :: cs).foldl pyJoin1 p0]⟩,
          by simp [create_from_spec, Stat.isDirStat, h, hp0,
              strContains_double_self, pyJoin]
             rfl⟩
    · cases rest with
      | nil =>
        exact ⟨.wildcard ⟨.dir d, sym, p0⟩,
          by simp [create_from_spec, Stat.isDirStat, h, hc]⟩
      | cons c cs =>
        by_cases hs : strContains p0 ("*") = true
        · exact ⟨.dirWildcard ⟨.dir d, sym, p0, [cs.foldl pyJoin1 c]⟩,
            by simp [create_from_spec, Stat.isDirStat, h, hc, hs, pyJoin]
               rfl⟩
        · exact ⟨.literal ⟨.dir d, sym, p0, cs.foldl pyJoin1 c⟩,
            by simp [create_from_spec, Stat.isDirStat, h, hc, hs, pyJoin]
               rfl⟩

/-- C10, witness for the amended theorem at concrete inputs. -/
theorem c10_create_from_spec_error_cases_witness :
    (∃ m, create_from_spec (.file ("f")) ("s") ("x") = .error (.valueError m)) ∧
    (∃ m, create_from_spec (.dir ("d")) ("s") ("x**/y") = .error (.valueError m)) ∧
    create_from_spec (.dir ("d")) ("s") ("**/") =
      .error (.typeError ("join takes at least 1 argument, 0 given")) ∧
    (∃ g, create_from_spec (.dir ("d")) ("s") ("a/b") = .ok g) :=
  ⟨c10_create_from_spec_error_cases.1 (.file ("f")) ("s") ("x") rfl,
   c10_create_from_spec_error_cases.2.1 ("d") ("s") ("x**/y") ("x**") [("y")]
     (by decide) (by decide) (by decide),
   c10_create_from_spec_error_cases.2.2.1 ("d") ("s") ("**/") (by decide),
   c10_create_from_spec_error_cases.2.2.2 ("d") ("s") ("a/b") ("a") [("b")]
     (by decide) (by decide) (by decide)⟩

/-- C9, witness at a concrete unsupported subject. -/
theorem c9_unsupported_root_subject_typeerror_witness :
    ∃ s', (∃ p', (s', p') ∈ [((Subject.other ("dict")), ("P" : Product))]) ∧
      selector_fn_kind s' = none ∧
      schedule_initial ⟨none, [], 0⟩ ⟨1, ⟨[(.other ("dict"), ("P"))], false⟩⟩ =
        .error (.typeError (unsupported_msg s')) :=
  c9_unsupported_root_subject_typeerror ⟨none, [], 0⟩
    ⟨1, ⟨[(.other ("dict"), ("P"))], false⟩⟩ rfl
    ⟨(.other ("dict"), ("P")), by decide, rfl⟩

/-- Every Path falls in exactly one of the file, dir, link partitions, so
the three filtered lists together account for every dependency. -/
theorem stat_partition_count (l : List PathV) :
    (l.filter (fun p => match p.stat with | .file _ => true | _ => false)).length +
    (l.filter (fun p => match p.stat with | .dir _ => true | _ => false)).length +
    (l.filter (fun p => match p.stat with | .link _ => true | _ => false)).length =
    l.length := by
  induction l with
  | nil => rfl
  | cons p t ih =>
    cases hp : p.stat <;> simp [List.filter_cons, hp] <;> omega

/-- C7: apply_path_wildcard yields exactly one Path per stat whose basename
matches the wildcard under the matcher, pairing the normalized join of the
symbolic path and the basename with the original stat; the files, dirs and
links accessors partition these matches by the stat subclass. -/
theorem c7_apply_path_wildcard_matches :
    ∀ (fm : String → String → Bool) (stats : Stats) (pw : PathWildcardS),
      (∀ q, q ∈ (apply_path_wildcard fm stats pw).dependencies ↔
        ∃ s ∈ stats.dependencies, fm (basename s.path) pw.wildcard = true ∧
          q = ⟨normpath (pyJoin1 pw.symbolic_path (basename s.path)), s⟩) ∧
      (∀ q, q ∈ Paths.files (apply_path_wildcard fm stats pw) ↔
        q ∈ (apply_path_wildcard fm stats pw).dependencies ∧ ∃ f, q.stat = .file f) ∧
      (∀ q, q ∈ Paths.dirs (apply_path_wildcard fm stats pw) ↔
        q ∈ (apply_path_wildcard fm stats pw).dependencies ∧ ∃ f, q.stat = .dir f) ∧
      (∀ q, q ∈ Paths.links (apply_path_wildcard fm stats pw) ↔
        q ∈ (apply_path_wildcard fm stats pw).dependencies ∧ ∃ f, q.stat = .link f) ∧
      (Paths.files (apply_path_wildcard fm stats pw)).length +
        (Paths.dirs (apply_path_wildcard fm stats pw)).length +
        (Paths.links (apply_path_wildcard fm stats pw)).length =
        (apply_path_wildcard fm stats pw).dependencies.length := by
  intro fm stats pw
  refine ⟨?_, ?_, ?_, ?_, ?_⟩
  · intro q
    simp only [apply_path_wildcard, List.mem_map, List.mem_filter]
    constructor
    · rintro ⟨s, ⟨hs, hm⟩, rfl⟩
      exact ⟨s, hs, hm, rfl⟩
    · rintro ⟨s, hs, hm, rfl⟩
      exact ⟨s, ⟨hs, hm⟩, rfl⟩
  · intro q
    simp only [Paths.files, List.mem_filter]
    cases hq : q.stat <;> simp [hq]
  · intro q
    simp only [Paths.dirs, List.mem_filter]
    cases hq : q.stat <;> simp [hq]
  · intro q
    simp only [Paths.links, List.mem_filter]
    cases hq : q.stat <;> simp [hq]
  · exact stat_partition_count _

/-- C8: with one resolved Dirs object per matched link, resolve_dir_links
returns (without error) the direct directory matches plus, for each link
whose resolution is nonempty, a Path carrying the link's symbolic path
paired with the first resolved entry's canonical stat; links with an empty
resolution contribute nothing. -/
theorem c8_resolve_dir_links_merges (dp : Paths) (ld : List DirsC)
    (h : dp.links.length = ld.length) :
    ∃ d, resolve_dir_links dp ld = .ok d ∧
      d.dependencies = dp.dirs ++
        ((dp.links.zip ld).filter (fun x => x.2.dependencies ≠ [])).map
          (fun x => ⟨x.1.path, (x.2.dependencies.headD ⟨(""), .file ("")⟩).stat⟩) := by
  refine ⟨⟨dp.dirs ++ ((dp.links.zip ld).filter
      (fun x => 0 < x.2.dependencies.length)).map
      (fun x => ⟨x.1.path, (x.2.dependencies.headD ⟨(""), .file ("")⟩).stat⟩)⟩, ?_, ?_⟩
  · simp [resolve_dir_links, h]
  · have hf : List.filter (fun x => decide (0 < x.2.dependencies.length))
        (dp.links.zip ld) =
        List.filter (fun x => decide (x.2.dependencies ≠ [])) (dp.links.zip ld) := by
      apply List.filter_congr
      intro x _
      cases x.2.dependencies <;> simp
    rw [hf]

/-- C8, witness: one direct dir, one link resolving to a dir, one link
resolving to nothing. -/
theorem c8_resolve_dir_links_merges_witness :
    ∃ d, resolve_dir_links
        ⟨[⟨("d1"), .dir ("c1")⟩, ⟨("l1"), .link ("c2")⟩, ⟨("l2"), .link ("c3")⟩]⟩
        [⟨[⟨("t1"), .dir ("c4")⟩]⟩, ⟨[]⟩] = .ok d ∧
      d.dependencies =
        Paths.dirs ⟨[⟨("d1"), .dir ("c1")⟩, ⟨("l1"), .link ("c2")⟩, ⟨("l2"), .link ("c3")⟩]⟩ ++
        ((Paths.links ⟨[⟨("d1"), .dir ("c1")⟩, ⟨("l1"), .link ("c2")⟩, ⟨("l2"), .link ("c3")⟩]⟩).zip
            [⟨[⟨("t1"), .dir ("c4")⟩]⟩, (⟨[]⟩ : DirsC)] |>.filter
          (fun x => x.2.dependencies ≠ [])).map
          (fun x => ⟨x.1.path, (x.2.dependencies.headD ⟨(""), .file ("")⟩).stat⟩) :=
  c8_resolve_dir_links_merges
    ⟨[⟨("d1"), .dir ("c1")⟩, ⟨("l1"), .link ("c2")⟩, ⟨("l2"), .link ("c3")⟩]⟩
    [⟨[⟨("t1"), .dir ("c4")⟩]⟩, ⟨[]⟩] (by decide)
